import Mathlib

/-
Verification development for the credential-resolution logic
(api/client/credentials.go) and the certificate-validity acceptance
harness (lib/auth/test/suite.go) of the teleport repository.

The Go code is shallowly embedded: pure functions become Lean functions,
fallible operations return Except, and external collaborators (the file
system, the standard-library key loaders, the identity-file decoder and
the certificate authority) are passed in explicitly so that the
repository's own control flow is the only thing being modelled.
-/

/-! ## Credential provider: data model (api/client/credentials.go) -/

/-- Modelled from the spec: an opaque client certificate as held by a TLS
configuration (crypto/tls.Certificate, external to the repository); its
contents are immaterial to the credential logic, which only moves it
around. -/
structure TLSCertificate where
  raw : String
deriving DecidableEq

/-- Modelled from the spec: the server's certificate-request message given
to a dynamic client-certificate callback (crypto/tls.CertificateRequestInfo,
external); the callback installed by the repository ignores it entirely. -/
structure CertificateRequestInfo where
  acceptableCAs : List String

/-- Modelled from the spec: an SSH client configuration as produced by the
identity-file decoder (golang.org/x/crypto/ssh.ClientConfig, external);
the repository returns it unchanged, so it is opaque here. -/
structure SSHClientConfig where
  user : String

/-- Modelled from the spec: a low-level connection dialer
(client.ContextDialer, declared elsewhere in the repository); no variant
under study ever produces one, so it is opaque. -/
structure ContextDialer where
  tag : String

/-- Shallow embedding of crypto/tls.Config restricted to the fields the
repository reads or writes: ServerName, NextProtos, Certificates, RootCAs
(modelled as the PEM bytes accepted into the pool) and the
GetClientCertificate callback. -/
structure TLSConfig where
  serverName : String
  nextProtos : List String
  certificates : List TLSCertificate
  rootCAs : Option String
  getClientCertificate : Option (CertificateRequestInfo → Except String TLSCertificate)

/-- Errors produced by the credential provider, one constructor per
gravitational/trace constructor the source calls: trace.NotImplemented,
trace.BadParameter, trace.ConvertSystemError (applied to an OS read
error) and trace.Wrap (of an underlying error). -/
inductive CredError where
  | notImplemented (msg : String)
  | badParameter (msg : String)
  | convertSystemError (osErr : String)
  | wrap (err : String)
deriving DecidableEq

/-- The spec's UnsupportedCapability class: errors built with
trace.NotImplemented. -/
def CredError.isUnsupportedCapability : CredError → Bool
  | .notImplemented _ => true
  | _ => false

/-- The spec's IOFailure class: errors built with
trace.ConvertSystemError on a failed file read. -/
def CredError.isIOFailure : CredError → Bool
  | .convertSystemError _ => true
  | _ => false

/-- The spec's MalformedInput and InvalidState classes both come from
trace.BadParameter; this recognises that constructor. -/
def CredError.isBadParameterError : CredError → Bool
  | .badParameter _ => true
  | _ => false

/-- Modelled from the spec: the identity-file decoder's output (an
external collaborator producing a TLS configuration and an SSH client
configuration, either of which may fail to decode); the repository treats
it as a black box. -/
structure IdentityFile where
  tlsConfig : Except String TLSConfig
  sshClientConfig : Except String SSHClientConfig

/-- Modelled from the spec: the external collaborators the credential
provider consults — ioutil.ReadFile, tls.LoadX509KeyPair,
x509.CertPool.AppendCertsFromPEM (a predicate on the PEM bytes) and
ReadIdentityFile (elsewhere in the repository, not under src/). -/
structure Env where
  readFile : String → Except String String
  loadX509KeyPair : String → String → Except String TLSCertificate
  appendCertsFromPEM : String → Bool
  readIdentityFile : String → Except String IdentityFile

/-! ## Credential provider: the three source variants and configure -/

/-- Embedding of TLSConfigCreds: a pre-built, possibly nil, TLS
configuration (credentials.go lines 48-52). -/
structure TLSConfigCreds where
  tlsConfig : Option TLSConfig

/-- Embedding of LoadTLS (credentials.go lines 41-46). -/
def LoadTLS (tlsConfig : Option TLSConfig) : TLSConfigCreds :=
  { tlsConfig := tlsConfig }

/-- Embedding of KeyPairCreds: certificate, key and CA bundle file paths
(credentials.go lines 81-87). -/
structure KeyPairCreds where
  certFile : String
  keyFile : String
  caFile : String

/-- Embedding of LoadKeyPair (credentials.go lines 72-79). -/
def LoadKeyPair (certFile keyFile caFile : String) : KeyPairCreds :=
  { certFile := certFile, keyFile := keyFile, caFile := caFile }

/-- Embedding of IdentityCreds: a single identity-file path
(credentials.go lines 129-133). -/
structure IdentityCreds where
  path : String

/-- Embedding of LoadIdentityFile (credentials.go lines 122-127). -/
def LoadIdentityFile (path : String) : IdentityCreds :=
  { path := path }

/-- Modelled from the spec: the canonical API domain constant
(api/constants.APIDomain, not under src/); the concrete string is
immaterial, only that it is a fixed non-empty constant. -/
def APIDomain : String := "teleport.cluster.local"

/-- Modelled from the spec: the single fixed ALPN protocol identifier
required by the control-plane transport (http2.NextProtoTLS, external). -/
def NextProtoTLS : String := "h2"

/-- Embedding of tls.Config.Clone restricted to the modelled fields: a
field-by-field copy of the configuration. -/
def TLSConfig.clone (c : TLSConfig) : TLSConfig :=
  { serverName := c.serverName
    nextProtos := c.nextProtos
    certificates := c.certificates
    rootCAs := c.rootCAs
    getClientCertificate := c.getClientCertificate }

/-- The two TLS-configuration objects in scope when configure returns:
the caller's object and the clone the function built and returns. -/
structure ConfigurePass where
  caller : TLSConfig
  result : TLSConfig

/-- Embedding of configure (credentials.go lines 170-191), tracking both
the caller's configuration object and the returned clone: the source
clones the input and then assigns only to the clone — NextProtos, the
ServerName default, and the certificate-to-callback rewrite. -/
def configureTracked (c : TLSConfig) : ConfigurePass :=
  let tlsConfig := c.clone
  let tlsConfig := { tlsConfig with nextProtos := [NextProtoTLS] }
  let tlsConfig :=
    if tlsConfig.serverName = "" then
      { tlsConfig with serverName := APIDomain }
    else tlsConfig
  let tlsConfig :=
    match tlsConfig.certificates with
    | [] => tlsConfig
    | cert :: _ =>
        { tlsConfig with
          certificates := []
          getClientCertificate := some fun _ => .ok cert }
  { caller := c, result := tlsConfig }

/-- The value configure returns (credentials.go line 190). -/
def configure (c : TLSConfig) : TLSConfig :=
  (configureTracked c).result

/-- Embedding of TLSConfigCreds.Dialer (credentials.go lines 54-57). -/
def TLSConfigCreds.Dialer (_ : TLSConfigCreds) : Except CredError ContextDialer :=
  .error (.notImplemented "no dialer")

/-- Embedding of TLSConfigCreds.TLSConfig (credentials.go lines 59-65). -/
def TLSConfigCreds.TLSConfig (c : TLSConfigCreds) : Except CredError TLSConfig :=
  match c.tlsConfig with
  | none => .error (.badParameter "tls config is nil")
  | some cfg => .ok (configure cfg)

/-- Embedding of TLSConfigCreds.SSHClientConfig (credentials.go lines 67-70). -/
def TLSConfigCreds.SSHClientConfig (_ : TLSConfigCreds) : Except CredError SSHClientConfig :=
  .error (.notImplemented "no ssh config")

/-- Embedding of KeyPairCreds.Dialer (credentials.go lines 89-92). -/
def KeyPairCreds.Dialer (_ : KeyPairCreds) : Except CredError ContextDialer :=
  .error (.notImplemented "no dialer")

/-- Embedding of KeyPairCreds.TLSConfig (credentials.go lines 94-115):
load the key pair (trace.Wrap on failure), read the CA bundle
(trace.ConvertSystemError on failure), append it to a fresh pool
(trace.BadParameter if the PEM does not parse), then configure. -/
def KeyPairCreds.TLSConfig (env : Env) (c : KeyPairCreds) : Except CredError TLSConfig :=
  match env.loadX509KeyPair c.certFile c.keyFile with
  | .error e => .error (.wrap e)
  | .ok cert =>
    match env.readFile c.caFile with
    | .error e => .error (.convertSystemError e)
    | .ok cas =>
      if env.appendCertsFromPEM cas then
        .ok (configure
          { serverName := ""
            nextProtos := []
            certificates := [cert]
            rootCAs := some cas
            getClientCertificate := none })
      else
        .error (.badParameter "invalid TLS CA cert PEM")

/-- Embedding of KeyPairCreds.SSHClientConfig (credentials.go lines 117-120). -/
def KeyPairCreds.SSHClientConfig (_ : KeyPairCreds) : Except CredError SSHClientConfig :=
  .error (.notImplemented "no ssh config")

/-- Embedding of IdentityCreds.Dialer (credentials.go lines 135-138). -/
def IdentityCreds.Dialer (_ : IdentityCreds) : Except CredError ContextDialer :=
  .error (.notImplemented "no dialer")

/-- Embedding of IdentityCreds.TLSConfig (credentials.go lines 140-153):
any ReadIdentityFile failure becomes trace.BadParameter with the decode
message; a TLSConfig decode failure is trace.Wrap; success goes through
configure. -/
def IdentityCreds.TLSConfig (env : Env) (c : IdentityCreds) : Except CredError TLSConfig :=
  match env.readIdentityFile c.path with
  | .error e => .error (.badParameter ("identity file could not be decoded: " ++ e))
  | .ok identityFile =>
    match identityFile.tlsConfig with
    | .error e => .error (.wrap e)
    | .ok tlsConfig => .ok (configure tlsConfig)

/-- Embedding of IdentityCreds.SSHClientConfig (credentials.go lines
155-168): same ReadIdentityFile error wrapping, then the decoded SSH
configuration is returned unchanged. -/
def IdentityCreds.SSHClientConfig (env : Env) (c : IdentityCreds) : Except CredError SSHClientConfig :=
  match env.readIdentityFile c.path with
  | .error e => .error (.badParameter ("identity file could not be decoded: " ++ e))
  | .ok identityFile =>
    match identityFile.sshClientConfig with
    | .error e => .error (.wrap e)
    | .ok sshConfig => .ok sshConfig

/-! ## Certificate validity acceptance harness (lib/auth/test/suite.go) -/

/-- One minute of validity-window time, in seconds; durations here are in
seconds since the harness only ever compares Unix-second values. -/
def minute : Int := 60

/-- One hour, in seconds (the harness's normal TTL). -/
def hour : Int := 3600

/-- Modelled from the spec: the minimum certificate duration floor
(api/defaults.MinCertDuration, not under src/): one minute. -/
def MinCertDuration : Int := minute

/-- Modelled from the spec: constants.CertificateFormatStandard
(api/constants, not under src/). -/
def CertificateFormatStandard : String := "standard"

/-- Modelled from the spec: types.RoleAdmin (api/types, not under src/). -/
def RoleAdmin : String := "Admin"

/-- Modelled from the spec: an OpenSSH-style certificate as the harness
sees it after sshutils.ParseCertificate (not under src/): the validity
bounds in Unix seconds, the decoded role-list extension (the result of
services.UnmarshalCertRoles on the roles extension, whose wire encoding
is an external collaborator's concern) and the impersonator extension
string (empty when absent, as a Go map lookup yields). -/
structure SSHCert where
  validAfter : Int
  validBefore : Int
  certRoles : Except String (List String)
  impersonator : String

/-- Embedding of services.UserCertParams restricted to the fields the
harness sets (suite.go lines 97-106): signer, public key, username,
allowed logins, TTL, forwarding permissions, certificate format, and the
optional impersonator and role list (Go zero values when unset). -/
structure UserCertParams where
  caSigner : String
  publicUserKey : String
  username : String
  allowedLogins : List String
  ttl : Int
  permitAgentForwarding : Bool
  permitPortForwarding : Bool
  certificateFormat : String
  impersonator : String
  roles : List String

/-- Embedding of services.HostCertParams as the harness sets them
(suite.go lines 67-75). -/
structure HostCertParams where
  caSigner : String
  publicHostKey : String
  hostID : String
  nodeName : String
  clusterName : String
  role : String
  ttl : Int

/-- The abstract certificate-signing contract the harness validates
(sshca.Authority, an external collaborator): certificate generation may
fail, and on success yields a certificate the harness parses; parse
failures of the produced bytes are folded into the error case, since
either aborts the harness identically. -/
structure Authority where
  generateUserCert : UserCertParams → Except String SSHCert
  generateHostCert : HostCertParams → Except String SSHCert

/-- Modelled from the spec: ssh.ParsePrivateKey (external); the spec only
demands that generated keys parse, so the parsed signer is identified
with the key bytes and parsing never fails here. Conditioning theorems on
a full harness pass is therefore sound: a real pass implies a pass of
this model. -/
def parsePrivateKey (priv : String) : Except String String :=
  .ok priv

/-- Embedding of the AuthSuite fixture (suite.go lines 41-45): the
authority under test, the key generator (its two outputs, or a failure)
and the injected clock's Now in Unix seconds. -/
structure AuthSuite where
  A : Authority
  Keygen : Except String (String × String)
  Clock : Int

/-- Embedding of checkCertExpiry (suite.go lines 179-194): ValidAfter is
compared first, then ValidBefore, each against an expected Unix-second
instant. -/
def checkCertExpiry (certificate : SSHCert) (after before : Int) : Except String Unit :=
  if certificate.validAfter = after then
    if certificate.validBefore = before then .ok ()
    else .error "ValidBefore incorrect"
  else .error "ValidAfter incorrect"

/-- The host-certificate parameters the harness passes (suite.go lines
67-75). -/
def hostCertParams (caSigner pub : String) : HostCertParams :=
  { caSigner := caSigner
    publicHostKey := pub
    hostID := "00000000-0000-0000-0000-000000000000"
    nodeName := "auth.example.com"
    clusterName := "example.com"
    role := RoleAdmin
    ttl := hour }

/-- First user-certificate call of the harness: TTL one hour, two allowed
logins (suite.go lines 97-106). -/
def userCertParams1 (caSigner pub : String) : UserCertParams :=
  { caSigner := caSigner, publicUserKey := pub, username := "user"
    allowedLogins := ["centos", "root"], ttl := hour
    permitAgentForwarding := true, permitPortForwarding := true
    certificateFormat := CertificateFormatStandard
    impersonator := "", roles := [] }

/-- Second user-certificate call: negative TTL of -20 time-units
(suite.go lines 114-123). -/
def userCertParams2 (caSigner pub : String) : UserCertParams :=
  { caSigner := caSigner, publicUserKey := pub, username := "user"
    allowedLogins := ["root"], ttl := -20
    permitAgentForwarding := true, permitPortForwarding := true
    certificateFormat := CertificateFormatStandard
    impersonator := "", roles := [] }

/-- Third user-certificate call: zero TTL (suite.go lines 128-137). -/
def userCertParams3 (caSigner pub : String) : UserCertParams :=
  { caSigner := caSigner, publicUserKey := pub, username := "user"
    allowedLogins := ["root"], ttl := 0
    permitAgentForwarding := true, permitPortForwarding := true
    certificateFormat := CertificateFormatStandard
    impersonator := "", roles := [] }

/-- Fourth user-certificate call: TTL one hour again (suite.go lines
142-151). -/
def userCertParams4 (caSigner pub : String) : UserCertParams :=
  { caSigner := caSigner, publicUserKey := pub, username := "user"
    allowedLogins := ["root"], ttl := hour
    permitAgentForwarding := true, permitPortForwarding := true
    certificateFormat := CertificateFormatStandard
    impersonator := "", roles := [] }

/-- Fifth user-certificate call: role list and impersonator set
(suite.go lines 154-167). -/
def userCertParams5 (caSigner pub : String) : UserCertParams :=
  { caSigner := caSigner, publicUserKey := pub, username := "user"
    allowedLogins := ["root"], ttl := hour
    permitAgentForwarding := true, permitPortForwarding := true
    certificateFormat := CertificateFormatStandard
    impersonator := "alice", roles := ["role-1", "role-2"] }

/-- Embedding of AuthSuite.GenerateHostCert (suite.go lines 59-88):
generate keys, parse the signer, generate a host certificate with a
one-hour TTL, and require ValidAfter = now - 1 minute and
ValidBefore = now + 1 hour against the injected clock. -/
def AuthSuite.GenerateHostCert (s : AuthSuite) : Except String Unit :=
  match s.Keygen with
  | .error e => .error e
  | .ok (priv, pub) =>
    match parsePrivateKey priv with
    | .error e => .error e
    | .ok caSigner =>
      match s.A.generateHostCert (hostCertParams caSigner pub) with
      | .error e => .error e
      | .ok certificate =>
        if certificate.validAfter = s.Clock - minute then
          if certificate.validBefore = s.Clock + hour then .ok ()
          else .error "ValidBefore incorrect"
        else .error "ValidAfter incorrect"

/-- Embedding of AuthSuite.GenerateUserCert (suite.go lines 90-177),
statement for statement. Note the third call (zero TTL, line 128): the
source discards that call's certificate and the following
checkCertExpiry (line 139) re-checks the certificate still bound from
the negative-TTL call; the embedding reproduces this faithfully. -/
def AuthSuite.GenerateUserCert (s : AuthSuite) : Except String Unit :=
  match s.Keygen with
  | .error e => .error e
  | .ok (priv, pub) =>
    match parsePrivateKey priv with
    | .error e => .error e
    | .ok caSigner =>
      match s.A.generateUserCert (userCertParams1 caSigner pub) with
      | .error e => .error e
      | .ok cert1 =>
        match checkCertExpiry cert1 (s.Clock - minute) (s.Clock + hour) with
        | .error e => .error e
        | .ok _ =>
          match s.A.generateUserCert (userCertParams2 caSigner pub) with
          | .error e => .error e
          | .ok cert2 =>
            match checkCertExpiry cert2 (s.Clock - minute) (s.Clock + MinCertDuration) with
            | .error e => .error e
            | .ok _ =>
              match s.A.generateUserCert (userCertParams3 caSigner pub) with
              | .error e => .error e
              | .ok _ =>
                match checkCertExpiry cert2 (s.Clock - minute) (s.Clock + MinCertDuration) with
                | .error e => .error e
                | .ok _ =>
                  match s.A.generateUserCert (userCertParams4 caSigner pub) with
                  | .error e => .error e
                  | .ok _ =>
                    match s.A.generateUserCert (userCertParams5 caSigner pub) with
                    | .error e => .error e
                    | .ok cert5 =>
                      match cert5.certRoles with
                      | .error e => .error e
                      | .ok outRoles =>
                        if outRoles = ["role-1", "role-2"] then
                          if cert5.impersonator = "alice" then .ok ()
                          else .error "impersonator mismatch"
                        else .error "roles mismatch"

/-! ## Concrete instances used by witnesses and counterexamples -/

/-- A sample client certificate. -/
def certA : TLSCertificate := { raw := "certA" }

/-- A second, distinct sample client certificate. -/
def certB : TLSCertificate := { raw := "certB" }

/-- A sample certificate-request input. -/
def reqA : CertificateRequestInfo := { acceptableCAs := ["someCA"] }

/-- A configuration carrying exactly one client certificate. -/
def cfgOneCert : TLSConfig :=
  { serverName := "proxy.example.com"
    nextProtos := ["http/1.1"]
    certificates := [certA]
    rootCAs := none
    getClientCertificate := none }

/-- A configuration carrying two client certificates. -/
def cfgTwoCerts : TLSConfig :=
  { serverName := ""
    nextProtos := []
    certificates := [certA, certB]
    rootCAs := none
    getClientCertificate := none }

/-! ## Claim theorems: configure -/

/-- C1: for every input TLS configuration carrying at least one client
certificate, configure returns a configuration with an empty static
certificate list and a client-certificate callback installed that, for
every certificate-request input, returns exactly the first certificate
of the input's static list with no error. -/
theorem configure_installs_client_cert_callback
    (c : TLSConfig) (cert : TLSCertificate) (rest : List TLSCertificate)
    (h : c.certificates = cert :: rest) :
    (configure c).certificates = [] ∧
    ∀ req : CertificateRequestInfo,
      ((configure c).getClientCertificate.map fun f => f req) = some (.ok cert) := by
  unfold configure configureTracked TLSConfig.clone
  by_cases hs : c.serverName = "" <;> simp [hs, h]

/-- Witness for C1 at a concrete one-certificate configuration and a
concrete certificate request. -/
theorem configure_installs_client_cert_callback_witness :
    (configure cfgOneCert).certificates = [] ∧
    ((configure cfgOneCert).getClientCertificate.map fun f => f reqA) =
      some (.ok certA) :=
  ⟨(configure_installs_client_cert_callback cfgOneCert certA [] rfl).1,
   (configure_installs_client_cert_callback cfgOneCert certA [] rfl).2 reqA⟩

/-- C5: for every input TLS configuration, including ones with no
certificates, the configuration configure returns has server name equal
to the input's server name when that is non-empty, and equal to the
canonical API domain constant when the input's server name is empty. -/
theorem configure_server_name_defaulting (c : TLSConfig) :
    (configure c).serverName =
      if c.serverName = "" then APIDomain else c.serverName := by
  unfold configure configureTracked TLSConfig.clone
  by_cases hs : c.serverName = "" <;>
    cases hc : c.certificates <;> simp [hs, hc]

/-- C6: configure never mutates the caller-supplied TLS configuration:
every field of the caller's object (server name, protocol list,
certificate list, CA pool, callback) is unchanged when configure
returns; all modifications went to the clone. -/
theorem configure_preserves_caller_config (c : TLSConfig) :
    (configureTracked c).caller.serverName = c.serverName ∧
    (configureTracked c).caller.nextProtos = c.nextProtos ∧
    (configureTracked c).caller.certificates = c.certificates ∧
    (configureTracked c).caller.rootCAs = c.rootCAs ∧
    (configureTracked c).caller.getClientCertificate = c.getClientCertificate :=
  ⟨rfl, rfl, rfl, rfl, rfl⟩

/-- C7: resolving a capability a credential-source variant does not
support always fails with UnsupportedCapability (trace.NotImplemented),
never partially succeeds: Dialer fails on every variant, and
SSHClientConfig fails on the TLSConfig and FilePaths variants. -/
theorem unsupported_capabilities_fail_not_implemented
    (a : TLSConfigCreds) (b : KeyPairCreds) (d : IdentityCreds) :
    a.Dialer = .error (.notImplemented "no dialer") ∧
    b.Dialer = .error (.notImplemented "no dialer") ∧
    d.Dialer = .error (.notImplemented "no dialer") ∧
    a.SSHClientConfig = .error (.notImplemented "no ssh config") ∧
    b.SSHClientConfig = .error (.notImplemented "no ssh config") ∧
    (CredError.notImplemented "no dialer").isUnsupportedCapability = true ∧
    (CredError.notImplemented "no ssh config").isUnsupportedCapability = true :=
  ⟨rfl, rfl, rfl, rfl, rfl, rfl, rfl⟩

/-- C10: when the input configuration carries more than one client
certificate, configure keeps only the first: the static list of the
result is empty, the installed callback returns the first certificate
for every request, and no later, different certificate is ever returned
by the callback. -/
theorem configure_discards_extra_certificates
    (c : TLSConfig) (cert : TLSCertificate) (rest : List TLSCertificate)
    (h : c.certificates = cert :: rest) (hrest : rest ≠ []) :
    (configure c).certificates = [] ∧
    (∀ req : CertificateRequestInfo,
      ((configure c).getClientCertificate.map fun f => f req) = some (.ok cert)) ∧
    ∀ req : CertificateRequestInfo, ∀ d ∈ rest, d ≠ cert →
      ((configure c).getClientCertificate.map fun f => f req) ≠ some (.ok d) := by
  refine ⟨?_, ?_, ?_⟩
  · unfold configure configureTracked TLSConfig.clone
    by_cases hs : c.serverName = "" <;> simp [hs, h]
  · intro req
    unfold configure configureTracked TLSConfig.clone
    by_cases hs : c.serverName = "" <;> simp [hs, h]
  · intro req d _ hd hcontra
    have hcert : ((configure c).getClientCertificate.map fun f => f req) =
        some (.ok cert) := by
      unfold configure configureTracked TLSConfig.clone
      by_cases hs : c.serverName = "" <;> simp [hs, h]
    rw [hcert] at hcontra
    exact hd (by injection hcontra with h2; injection h2 with h3; exact h3.symm)

/-- Witness for C10 at a concrete two-certificate configuration. -/
theorem configure_discards_extra_certificates_witness :
    (configure cfgTwoCerts).certificates = [] ∧
    ((configure cfgTwoCerts).getClientCertificate.map fun f => f reqA) =
      some (.ok certA) ∧
    ((configure cfgTwoCerts).getClientCertificate.map fun f => f reqA) ≠
      some (.ok certB) :=
  ⟨(configure_discards_extra_certificates cfgTwoCerts certA [certB] rfl
      (by decide)).1,
   (configure_discards_extra_certificates cfgTwoCerts certA [certB] rfl
      (by decide)).2.1 reqA,
   (configure_discards_extra_certificates cfgTwoCerts certA [certB] rfl
      (by decide)).2.2 reqA certB (by decide) (by decide)⟩

/-! ## Claim theorems: error handling of the file-based variants -/

/-- An environment in which the key pair loads, the CA bundle file reads
successfully but its contents fail PEM parsing, and the identity file is
unreadable. -/
def envBadPem : Env :=
  { readFile := fun p => if p = "ca.pem" then .ok "not a pem" else .error "open: no such file or directory"
    loadX509KeyPair := fun _ _ => .ok certA
    appendCertsFromPEM := fun _ => false
    readIdentityFile := fun _ => .error "open identity: permission denied" }

/-- The concrete FilePaths source used by the error-handling witnesses. -/
def keyPairCredsA : KeyPairCreds := LoadKeyPair "cert.pem" "key.pem" "ca.pem"

/-- The concrete IdentityFile source used by the error-handling
witnesses and counterexample. -/
def identityCredsA : IdentityCreds := LoadIdentityFile "identity"

/-- C8: when the CA bundle file of a FilePaths source reads successfully
but fails PEM parsing (and the key pair itself loaded), TLSConfig fails
with the BadParameter error the source raises — the spec's
MalformedInput — and the result is exactly an error, with no
configuration value observable. -/
theorem keypair_tlsconfig_bad_pem_malformed_input
    (env : Env) (c : KeyPairCreds) (cert : TLSCertificate) (cas : String)
    (hload : env.loadX509KeyPair c.certFile c.keyFile = .ok cert)
    (hread : env.readFile c.caFile = .ok cas)
    (hpem : env.appendCertsFromPEM cas = false) :
    KeyPairCreds.TLSConfig env c = .error (.badParameter "invalid TLS CA cert PEM") ∧
    (CredError.badParameter "invalid TLS CA cert PEM").isBadParameterError = true ∧
    ∀ cfg, KeyPairCreds.TLSConfig env c ≠ .ok cfg := by
  unfold KeyPairCreds.TLSConfig
  rw [hload, hread]
  simp [hpem, CredError.isBadParameterError]

/-- Witness for C8 at a concrete environment and FilePaths source. -/
theorem keypair_tlsconfig_bad_pem_malformed_input_witness :
    KeyPairCreds.TLSConfig envBadPem keyPairCredsA =
      .error (.badParameter "invalid TLS CA cert PEM") ∧
    (CredError.badParameter "invalid TLS CA cert PEM").isBadParameterError = true ∧
    ∀ cfg, KeyPairCreds.TLSConfig envBadPem keyPairCredsA ≠ .ok cfg :=
  keypair_tlsconfig_bad_pem_malformed_input envBadPem keyPairCredsA certA
    "not a pem" rfl rfl rfl

/-- C9 counterexample: an IdentityFile source whose file cannot be read
(the decoder fails with a permission-denied read error) makes TLSConfig
fail with trace.BadParameter — the MalformedInput class — and not with
an IOFailure, refuting the claim that read failures on the IdentityFile
variant surface as IOFailure. -/
theorem identity_read_failure_not_io_failure_counterexample :
    IdentityCreds.TLSConfig envBadPem identityCredsA =
      .error (.badParameter
        "identity file could not be decoded: open identity: permission denied") ∧
    (CredError.badParameter
      "identity file could not be decoded: open identity: permission denied").isIOFailure
      = false :=
  ⟨rfl, rfl⟩

/-- C9 as amended: a failed read of the FilePaths variant's CA bundle
surfaces as IOFailure (trace.ConvertSystemError), while a failed read of
the IdentityFile variant's file surfaces, in both TLSConfig and
SSHClientConfig, as the BadParameter decode error — the spec's
MalformedInput — and never as IOFailure. -/
theorem read_failure_error_kinds
    (env : Env) (k : KeyPairCreds) (d : IdentityCreds)
    (cert : TLSCertificate) (e1 e2 : String)
    (hload : env.loadX509KeyPair k.certFile k.keyFile = .ok cert)
    (hca : env.readFile k.caFile = .error e1)
    (hid : env.readIdentityFile d.path = .error e2) :
    KeyPairCreds.TLSConfig env k = .error (.convertSystemError e1) ∧
    (CredError.convertSystemError e1).isIOFailure = true ∧
    IdentityCreds.TLSConfig env d =
      .error (.badParameter ("identity file could not be decoded: " ++ e2)) ∧
    IdentityCreds.SSHClientConfig env d =
      .error (.badParameter ("identity file could not be decoded: " ++ e2)) ∧
    (CredError.badParameter ("identity file could not be decoded: " ++ e2)).isIOFailure
      = false := by
  unfold KeyPairCreds.TLSConfig IdentityCreds.TLSConfig IdentityCreds.SSHClientConfig
  rw [hload, hca, hid]
  exact ⟨rfl, rfl, rfl, rfl, rfl⟩

/-- Witness for the amended C9 at a concrete environment in which the CA
bundle and the identity file are both unreadable. -/
theorem read_failure_error_kinds_witness :
    KeyPairCreds.TLSConfig envBadPem (LoadKeyPair "cert.pem" "key.pem" "other.pem") =
      .error (.convertSystemError "open: no such file or directory") ∧
    (CredError.convertSystemError "open: no such file or directory").isIOFailure = true ∧
    IdentityCreds.TLSConfig envBadPem identityCredsA =
      .error (.badParameter
        ("identity file could not be decoded: " ++ "open identity: permission denied")) ∧
    IdentityCreds.SSHClientConfig envBadPem identityCredsA =
      .error (.badParameter
        ("identity file could not be decoded: " ++ "open identity: permission denied")) ∧
    (CredError.badParameter
      ("identity file could not be decoded: " ++ "open identity: permission denied")).isIOFailure
      = false :=
  read_failure_error_kinds envBadPem (LoadKeyPair "cert.pem" "key.pem" "other.pem")
    identityCredsA certA "open: no such file or directory"
    "open identity: permission denied" rfl rfl rfl

/-! ## Claim theorems: the certificate validity acceptance harness -/

deriving instance DecidableEq for Except

deriving instance DecidableEq for SSHCert

/-- A well-behaved authority used for harness witness runs: certificate
windows start one minute before the given clock and end after the
requested TTL, clamped from below by MinCertDuration, and user
certificates echo the requested role list and impersonator. -/
def goodAuthority (now : Int) : Authority :=
  { generateUserCert := fun p =>
      .ok { validAfter := now - minute
            validBefore := now + (if p.ttl ≤ MinCertDuration then MinCertDuration else p.ttl)
            certRoles := .ok p.roles
            impersonator := p.impersonator }
    generateHostCert := fun p =>
      .ok { validAfter := now - minute
            validBefore := now + p.ttl
            certRoles := .ok []
            impersonator := "" } }

/-- A suite fixture over the well-behaved authority, with a clock fixed
at 1000 Unix seconds. -/
def goodSuite : AuthSuite :=
  { A := goodAuthority 1000, Keygen := .ok ("priv", "pub"), Clock := 1000 }

/-- C3: when the host-certificate harness passes, the certificate the
authority produced for its parameters (fixed clock, one-hour TTL) has
validAfter equal to now - 1 minute and validBefore equal to now + 1
hour, measured against the suite's injected clock. -/
theorem generateHostCert_window_matches_injected_clock
    (s : AuthSuite) (priv pub : String) (cert : SSHCert)
    (hkey : s.Keygen = .ok (priv, pub))
    (hgen : s.A.generateHostCert (hostCertParams priv pub) = .ok cert)
    (hrun : s.GenerateHostCert = .ok ()) :
    cert.validAfter = s.Clock - minute ∧ cert.validBefore = s.Clock + hour := by
  unfold AuthSuite.GenerateHostCert at hrun
  rw [hkey] at hrun
  simp only [parsePrivateKey] at hrun
  split at hrun
  · exact Except.noConfusion hrun
  · rename_i certificate heq
    rw [hgen] at heq
    injection heq with hc
    subst hc
    split at hrun
    · split at hrun
      · exact ⟨by assumption, by assumption⟩
      · exact Except.noConfusion hrun
    · exact Except.noConfusion hrun

/-- Witness for C3: the well-behaved authority passes the
host-certificate harness, and its certificate's window is exactly
one minute before to one hour after the injected clock. -/
theorem generateHostCert_window_matches_injected_clock_witness :
    ({ validAfter := goodSuite.Clock - minute
       validBefore := goodSuite.Clock + hour
       certRoles := .ok []
       impersonator := "" } : SSHCert).validAfter = goodSuite.Clock - minute ∧
    ({ validAfter := goodSuite.Clock - minute
       validBefore := goodSuite.Clock + hour
       certRoles := .ok []
       impersonator := "" } : SSHCert).validBefore = goodSuite.Clock + hour :=
  generateHostCert_window_matches_injected_clock goodSuite "priv" "pub"
    { validAfter := goodSuite.Clock - minute
      validBefore := goodSuite.Clock + hour
      certRoles := .ok []
      impersonator := "" }
    rfl rfl (by decide)

/-- C4: when the user-certificate harness passes, the certificate the
authority produced for the role-list-and-impersonator parameters decodes
back to exactly the role list the harness requested, in order, and to
exactly the requested impersonator string. -/
theorem generateUserCert_roles_impersonator_roundtrip
    (s : AuthSuite) (priv pub : String) (cert : SSHCert)
    (hkey : s.Keygen = .ok (priv, pub))
    (hgen : s.A.generateUserCert (userCertParams5 priv pub) = .ok cert)
    (hrun : s.GenerateUserCert = .ok ()) :
    cert.certRoles = .ok ["role-1", "role-2"] ∧ cert.impersonator = "alice" := by
  unfold AuthSuite.GenerateUserCert at hrun
  rw [hkey] at hrun
  simp only [parsePrivateKey] at hrun
  repeat' split at hrun
  any_goals exact Except.noConfusion hrun
  simp_all

/-- Witness for C4: the well-behaved authority passes the whole
user-certificate harness, and its fifth certificate round-trips the
requested roles and impersonator. -/
theorem generateUserCert_roles_impersonator_roundtrip_witness :
    ({ validAfter := goodSuite.Clock - minute
       validBefore := goodSuite.Clock + hour
       certRoles := .ok ["role-1", "role-2"]
       impersonator := "alice" } : SSHCert).certRoles = .ok ["role-1", "role-2"] ∧
    ({ validAfter := goodSuite.Clock - minute
       validBefore := goodSuite.Clock + hour
       certRoles := .ok ["role-1", "role-2"]
       impersonator := "alice" } : SSHCert).impersonator = "alice" :=
  generateUserCert_roles_impersonator_roundtrip goodSuite "priv" "pub"
    { validAfter := goodSuite.Clock - minute
      validBefore := goodSuite.Clock + hour
      certRoles := .ok ["role-1", "role-2"]
      impersonator := "alice" }
    rfl (by decide) (by decide)

/-- An authority identical to the well-behaved one except on a zero TTL:
there it issues a certificate whose validity window is not clamped but
ends a full two hours after the clock. -/
def zeroTTLUnclampedAuthority (now : Int) : Authority :=
  { generateUserCert := fun p =>
      if p.ttl = 0 then
        .ok { validAfter := now - minute
              validBefore := now + 2 * hour
              certRoles := .ok p.roles
              impersonator := p.impersonator }
      else
        (goodAuthority now).generateUserCert p
    generateHostCert := (goodAuthority now).generateHostCert }

/-- A suite fixture over the unclamped-at-zero authority, clock fixed at
1000 Unix seconds. -/
def zeroTTLUnclampedSuite : AuthSuite :=
  { A := zeroTTLUnclampedAuthority 1000
    Keygen := .ok ("priv", "pub")
    Clock := 1000 }

/-- C2 (code bug): the user-certificate harness passes in full on an
authority whose zero-TTL certificate is unclamped — its window ends at
clock + 7200 seconds, not clock + MinCertDuration — because suite.go
line 128 discards the zero-TTL call's certificate and the
checkCertExpiry at line 139 re-checks the certificate from the
negative-TTL call; the zero-TTL clamping is therefore not checked
identically to the negative-TTL case, contradicting the claim and the
clear intent of the surrounding test. -/
theorem generateUserCert_zero_ttl_clamping_unchecked :
    zeroTTLUnclampedSuite.GenerateUserCert = .ok () ∧
    zeroTTLUnclampedSuite.A.generateUserCert (userCertParams3 "priv" "pub") =
      .ok { validAfter := 940
            validBefore := 8200
            certRoles := .ok []
            impersonator := "" } ∧
    (8200 : Int) ≠ zeroTTLUnclampedSuite.Clock + MinCertDuration :=
  ⟨by decide, by decide, by decide⟩
